import Mathlib

/-!
Verification of the harvest-aware commodity trading backtester documented in
this repository (backtest engine, decision strategies, rolling-horizon LP
optimizer).  Pure decision logic is translated from the code listings in
`src/docs/trading-agent/strategies.md` and `src/docs/trading-agent/introduction.md`
into executable Lean definitions over exact rational arithmetic.

Conventions of the embedding:
* Money and tonnage amounts are rationals (`ℚ`); the "within floating
  tolerance" clauses of the specification become exact equalities.
* A forecast ensemble (`n_paths × n_horizons` numpy matrix) is a row-major
  `List (List ℚ)` (one inner list per Monte-Carlo path).
* The coefficient of variation `cv = std_dev / median` produced by
  `calculate_prediction_confidence` involves a square root, which has no exact
  rational value; the decision ladders only consume the resulting `cv` number,
  so every function below takes `cv` as an explicit argument (the guards of
  `calculate_prediction_confidence` return `cv = 1` for an empty ensemble or a
  non-positive median).
* Fallible steps (the scipy `linprog` call) are `Option`-valued.
-/

/-- The two possible actions of a `Decision` (`strategies.md`, base class). -/
inductive TAction
  | SELL
  | HOLD
deriving DecidableEq, Repr

/-- The decision dictionary returned by every strategy:
`{action, amount, reason}` (`strategies.md`, `Strategy.decide`). -/
structure Decision where
  action : TAction
  amount : ℚ
  reason : String
deriving DecidableEq, Repr

/-- Last `n` elements of a list (pandas `.tail(n)` / numpy `[-n:]`). -/
def lastN (n : Nat) (l : List ℚ) : List ℚ := l.drop (l.length - n)

/-- Arithmetic mean (numpy `mean`); `0` on the empty list, which only occurs
outside the guarded paths of the source. -/
def listMean (l : List ℚ) : ℚ := l.sum / l.length

/-- Consecutive differences (numpy `diff`). -/
def listDiffs (l : List ℚ) : List ℚ := List.zipWith (fun b a => b - a) l.tail l

/-- Maximum of a list (python `max`); `0` on the empty list. -/
def listMax : List ℚ → ℚ
  | [] => 0
  | x :: xs => xs.foldl max x

/-- First index of the maximal element (numpy `argmax`). -/
def argmaxIdx (l : List ℚ) : Nat :=
  (List.range l.length).foldl (fun best i => if l.getD best 0 < l.getD i 0 then i else best) 0

/-- numpy `median`: average of the two middle elements of the sorted list
(equal to the middle element for odd length). -/
def npMedian (l : List ℚ) : ℚ :=
  let s := l.insertionSort (· ≤ ·)
  (s.getD ((l.length - 1) / 2) 0 + s.getD (l.length / 2) 0) / 2

/-- Number of horizon days of a row-major forecast matrix (numpy `shape[1]`,
assuming the rectangular ensembles produced by the forecast collaborator). -/
def matShape1 (m : List (List ℚ)) : Nat := m.headI.length

/-- Column `h` of a row-major forecast matrix (numpy `predictions[:, h]`). -/
def matCol (m : List (List ℚ)) (h : Nat) : List ℚ := m.map (fun row => row.getD h 0)

/-- Total number of entries (numpy `size`). -/
def matSize (m : List (List ℚ)) : Nat := (m.map List.length).sum

/-- `calculate_rsi` (`indicators.py:10-36`, listing in `strategies.md:137-169`):
average gain over average loss on the last `period+1` prices, neutral `50`
when history is insufficient, `100` when there are no losses. -/
def calculateRSI (prices : List ℚ) (period : Nat) : ℚ :=
  if prices.length < period + 1 then 50
  else
    let deltas := listDiffs (lastN (period + 1) prices)
    let gains := deltas.map (fun d => if 0 < d then d else 0)
    let losses := deltas.map (fun d => if d < 0 then -d else 0)
    let avgGain := listMean gains
    let avgLoss := listMean losses
    if avgLoss = 0 then 100
    else
      let rs := avgGain / avgLoss
      100 - 100 / (1 + rs)

/-- `calculate_adx` (`indicators.py:39-86`, listing in `strategies.md:222-276`),
in the price-only case (`high = low = close = price`): true range, directional
movement, directional indicators and (unsmoothed) DX.  Returns
`(adx, plus_di, minus_di)`; `(20, 0, 0)` when history is insufficient. -/
def calculateADX (priceHistory : List ℚ) (period : Nat) : ℚ × ℚ × ℚ :=
  if priceHistory.length < period + 1 then (20, 0, 0)
  else
    let high := priceHistory
    let low := priceHistory
    let close := priceHistory
    let tr := List.zipWith (fun hl (c : ℚ) => max (hl.1 - hl.2) (max |hl.1 - c| |hl.2 - c|))
      (List.zip high.tail low.tail) close
    let upMove := listDiffs high
    let downMove := (listDiffs low).map (fun d => -d)
    let plusDM := List.zipWith (fun u d => if d < u then max u 0 else 0) upMove downMove
    let minusDM := List.zipWith (fun u d => if u < d then max d 0 else 0) upMove downMove
    let atr := listMean (lastN period tr)
    let dis := if 0 < atr then
        (100 * listMean (lastN period plusDM) / atr, 100 * listMean (lastN period minusDM) / atr)
      else ((0 : ℚ), (0 : ℚ))
    let plusDI := dis.1
    let minusDI := dis.2
    let diSum := plusDI + minusDI
    let adx := if 0 < diSum then 100 * |plusDI - minusDI| / diSum else 0
    (adx, plusDI, minusDI)

/-- `Strategy._force_liquidation_check` (`strategies.md:2329-2338`): once the
day index (measured from harvest start) reaches `max_holding_days`, sell all
remaining inventory; otherwise no forced decision. -/
def forceLiquidationCheck (maxHoldingDays day : Nat) (inventory : ℚ) : Option Decision :=
  if maxHoldingDays ≤ day then
    some ⟨.SELL, inventory, "force_liquidation_max_days"⟩
  else none

/-- `Strategy._execute_trade`: emit a SELL of the given fraction of inventory
(`introduction.md`: `return SELL amount=inventory*batch_size`). -/
def executeTrade (inventory batch : ℚ) (reason : String) : Decision :=
  ⟨.SELL, inventory * batch, reason⟩

/-- Parameters of `ImmediateSaleStrategy` (`baseline.py:29-71`). -/
structure ISParams where
  min_batch_size : ℚ := 5
  sale_frequency_days : Nat := 7
  max_holding_days : Nat := 365

/-- `ImmediateSaleStrategy.decide` (`baseline.py:44-66`, listing in
`strategies.md:525-554`).  `daysSinceLastSale` is the strategy attribute
`self.days_since_last_sale`, threaded explicitly. -/
def immediateSaleDecide (p : ISParams) (day daysSinceLastSale : Nat) (inventory : ℚ) : Decision :=
  if inventory ≤ 0 then ⟨.HOLD, 0, "no_inventory"⟩
  else match forceLiquidationCheck p.max_holding_days day inventory with
  | some d => d
  | none =>
    if p.sale_frequency_days ≤ daysSinceLastSale ∧ p.min_batch_size ≤ inventory then
      ⟨.SELL, inventory, "immediate_weekly_sale"⟩
    else if ¬ p.min_batch_size ≤ inventory then ⟨.HOLD, 0, "accumulating"⟩
    else ⟨.HOLD, 0, "waiting_for_sale_day"⟩

/-- Parameters of `EqualBatchStrategy` (`baseline.py:73-108`). -/
structure EBParams where
  batch_size : ℚ := 25/100
  frequency_days : Nat := 30
  max_holding_days : Nat := 365

/-- `EqualBatchStrategy.decide` (`baseline.py:88-103`, listing in
`strategies.md:623-639`). -/
def equalBatchDecide (p : EBParams) (day lastSaleDay : Nat) (inventory : ℚ) : Decision :=
  if inventory ≤ 0 then ⟨.HOLD, 0, "no_inventory"⟩
  else match forceLiquidationCheck p.max_holding_days day inventory with
  | some d => d
  | none =>
    if p.frequency_days ≤ day - lastSaleDay then
      ⟨.SELL, inventory * p.batch_size, "scheduled_batch"⟩
    else ⟨.HOLD, 0, "waiting_for_schedule"⟩

/-- Parameters of `PriceThresholdStrategy` (`baseline.py:110-218`,
defaults from `strategies.md:770-780`). -/
structure PTParams where
  threshold_pct : ℚ := 5/100
  batch_baseline : ℚ := 25/100
  batch_overbought_strong : ℚ := 35/100
  batch_overbought : ℚ := 30/100
  batch_strong_trend : ℚ := 20/100
  rsi_overbought : ℚ := 70
  rsi_moderate : ℚ := 65
  adx_strong : ℚ := 25
  cooldown_days : Nat := 7
  max_days_without_sale : Nat := 60
  max_holding_days : Nat := 365

/-- `PriceThresholdStrategy._analyze_historical` (`baseline.py:189-208`,
listing in `strategies.md:741-768`): RSI/ADX-tiered batch selection. -/
def ptAnalyzeHistorical (p : PTParams) (priceHistory : List ℚ) : ℚ × String :=
  let rsi := calculateRSI priceHistory 14
  let adx := (calculateADX priceHistory 14).1
  if p.rsi_overbought < rsi ∧ p.adx_strong < adx then
    (p.batch_overbought_strong, "overbought_strong_trend")
  else if p.rsi_overbought < rsi then (p.batch_overbought, "overbought")
  else if p.adx_strong < adx ∧ rsi < p.rsi_moderate then (p.batch_strong_trend, "strong_trend")
  else (p.batch_baseline, "baseline")

/-- The trailing moving-average threshold of `PriceThresholdStrategy.decide`
(`strategies.md:710-715`). -/
def ptThreshold (p : PTParams) (currentPrice : ℚ) (priceHistory : List ℚ) : ℚ :=
  if 30 ≤ priceHistory.length then listMean (lastN 30 priceHistory) * (1 + p.threshold_pct)
  else currentPrice * (1 + p.threshold_pct)

/-- `PriceThresholdStrategy.decide` (`baseline.py:154-188`, listing in
`strategies.md:700-737`). -/
def ptDecide (p : PTParams) (day lastSaleDay : Nat) (inventory currentPrice : ℚ)
    (priceHistory : List ℚ) : Decision :=
  if inventory ≤ 0 then ⟨.HOLD, 0, "no_inventory"⟩
  else match forceLiquidationCheck p.max_holding_days day inventory with
  | some d => d
  | none =>
    let daysSinceSale := day - lastSaleDay
    let signalTriggered := ptThreshold p currentPrice priceHistory < currentPrice
    let canTrade := p.cooldown_days ≤ daysSinceSale
    if ¬ signalTriggered then
      if p.max_days_without_sale ≤ daysSinceSale then
        executeTrade inventory p.batch_baseline "fallback"
      else ⟨.HOLD, 0, "below_threshold"⟩
    else if ¬ canTrade then ⟨.HOLD, 0, "cooldown"⟩
    else
      let br := ptAnalyzeHistorical p priceHistory
      executeTrade inventory br.1 br.2

/-- Parameters of `MovingAverageStrategy` (`baseline.py:220-340`,
defaults from `strategies.md:906-917`). -/
structure MAParams where
  ma_period : Nat := 30
  batch_baseline : ℚ := 25/100
  batch_strong_momentum : ℚ := 20/100
  batch_overbought_strong : ℚ := 35/100
  batch_overbought : ℚ := 30/100
  rsi_overbought : ℚ := 70
  rsi_min : ℚ := 45
  adx_strong : ℚ := 25
  adx_weak : ℚ := 20
  cooldown_days : Nat := 7
  max_days_without_sale : Nat := 60
  max_holding_days : Nat := 365

/-- `MovingAverageStrategy._analyze_historical` (`baseline.py:312-331`,
listing in `strategies.md:877-904`). -/
def maAnalyzeHistorical (p : MAParams) (priceHistory : List ℚ) : ℚ × String :=
  let rsi := calculateRSI priceHistory 14
  let adx := (calculateADX priceHistory 14).1
  if p.adx_strong < adx ∧ p.rsi_min ≤ rsi ∧ rsi ≤ p.rsi_overbought then
    (p.batch_strong_momentum, "strong_momentum")
  else if p.rsi_overbought < rsi ∧ p.adx_strong < adx then
    (p.batch_overbought_strong, "overbought_strong")
  else if p.rsi_overbought < rsi then (p.batch_overbought, "overbought")
  else (p.batch_baseline, "baseline")

/-- `MovingAverageStrategy.decide` (`baseline.py:267-310`, listing in
`introduction.md:183-215` and `strategies.md:842-873`): inventory and forced
liquidation prologue shared by all strategies, then fallback, history check
and MA-crossover detection. -/
def maDecide (p : MAParams) (day lastSaleDay : Nat) (inventory currentPrice : ℚ)
    (priceHistory : List ℚ) : Decision :=
  if inventory ≤ 0 then ⟨.HOLD, 0, "no_inventory"⟩
  else match forceLiquidationCheck p.max_holding_days day inventory with
  | some d => d
  | none =>
    let daysSinceSale := day - lastSaleDay
    if p.max_days_without_sale ≤ daysSinceSale then
      executeTrade inventory p.batch_baseline "fallback"
    else if priceHistory.length < p.ma_period + 1 then ⟨.HOLD, 0, "insufficient_history"⟩
    else
      let recentPrices := lastN (p.ma_period + 1) priceHistory
      let maCurrent := listMean (lastN p.ma_period recentPrices)
      let maPrev := listMean (recentPrices.take p.ma_period)
      let prevPrice := recentPrices.getD (recentPrices.length - 2) 0
      if prevPrice ≤ maPrev ∧ maCurrent < currentPrice then
        ⟨.HOLD, 0, "upward_crossover_bullish"⟩
      else if maPrev ≤ prevPrice ∧ currentPrice < maCurrent then
        if daysSinceSale < p.cooldown_days then ⟨.HOLD, 0, "cooldown"⟩
        else
          let br := maAnalyzeHistorical p priceHistory
          executeTrade inventory br.1 br.2
      else ⟨.HOLD, 0, "no_crossover"⟩

/-- Forecast confidence tier of `_analyze_prediction_signal`
(`prediction.py:168-209`). -/
inductive Confidence
  | HIGH
  | MEDIUM
  | LOW
deriving DecidableEq, Repr

/-- Forecast direction bucket of `_analyze_prediction_signal`
(`prediction.py:168-209`). -/
inductive Direction
  | STRONG_UPWARD
  | MODERATE_UPWARD
  | STRONG_DOWNWARD
  | MODERATE_DOWNWARD
  | NEUTRAL
deriving DecidableEq, Repr

/-- Shared parameters of the matched-pair prediction strategies
(`strategies.md:1276-1286`). -/
structure PredParams where
  storage_cost_pct_per_day : ℚ := 5/1000
  transaction_cost_pct : ℚ := 1/100
  high_confidence_cv : ℚ := 5/100
  medium_confidence_cv : ℚ := 15/100
  strong_positive_threshold : ℚ := 2
  strong_negative_threshold : ℚ := -1
  moderate_threshold : ℚ := 1/2
  batch_pred_hold : ℚ := 0
  batch_pred_aggressive : ℚ := 40/100
  batch_pred_cautious : ℚ := 15/100

/-- Confidence classification of `_analyze_prediction_signal`
(`strategies.md:1073-1078`). -/
def signalConfidence (p : PredParams) (cv : ℚ) : Confidence :=
  if cv < p.high_confidence_cv then .HIGH
  else if cv < p.medium_confidence_cv then .MEDIUM
  else .LOW

/-- Direction classification of `_analyze_prediction_signal`
(`strategies.md:1081-1090`). -/
def signalDirection (p : PredParams) (netBenefitPct : ℚ) : Direction :=
  if p.strong_positive_threshold < netBenefitPct then .STRONG_UPWARD
  else if p.moderate_threshold < netBenefitPct then .MODERATE_UPWARD
  else if netBenefitPct < p.strong_negative_threshold then .STRONG_DOWNWARD
  else if netBenefitPct < -p.moderate_threshold then .MODERATE_DOWNWARD
  else .NEUTRAL

/-- `_calculate_net_benefit_pct` (`prediction.py:351-371`, listing in
`introduction.md:331-352`): expected value of selling on each horizon day
(ensemble median net of storage and transaction costs) against selling today,
as a percentage of the current price. -/
def calcNetBenefitPct (storageRate transRate currentPrice : ℚ) (m : List (List ℚ)) : ℚ :=
  let evByDay := (List.range (matShape1 m)).map (fun h =>
    let futurePrice := npMedian (matCol m h)
    let storageCost := currentPrice * (storageRate / 100) * ((h : ℚ) + 1)
    let transactionCost := futurePrice * (transRate / 100)
    futurePrice - storageCost - transactionCost)
  let evToday := currentPrice - currentPrice * (transRate / 100)
  100 * (listMax evByDay - evToday) / currentPrice

/-- `_execute_prediction_override` (`prediction.py:211-244`, listing in
`strategies.md:1137-1170`): HIGH-confidence direction buckets. -/
def executePredictionOverride (pred : PredParams) (batchBaseline inventory : ℚ)
    (dir : Direction) : Decision :=
  match dir with
  | .STRONG_UPWARD => executeTrade inventory pred.batch_pred_hold "OVERRIDE_hold_strong_upward"
  | .MODERATE_UPWARD => executeTrade inventory pred.batch_pred_cautious "OVERRIDE_small_hedge_mod_upward"
  | .STRONG_DOWNWARD => executeTrade inventory pred.batch_pred_aggressive "OVERRIDE_aggressive_strong_downward"
  | .MODERATE_DOWNWARD => executeTrade inventory batchBaseline "OVERRIDE_baseline_mod_downward"
  | .NEUTRAL => executeTrade inventory batchBaseline "OVERRIDE_neutral"

/-- The `{triggered, batch_size, reason}` summary returned by
`_get_baseline_action` and consumed by `_execute_blended_decision`
(`strategies.md:1179-1195`). -/
structure BaselineAction where
  triggered : Bool
  batch_size : ℚ
  reason : String

/-- `_execute_blended_decision` (`prediction.py:246-283`, listing in
`strategies.md:1175-1207`): MEDIUM-confidence blend of the baseline signal
with the forecast direction. -/
def executeBlendedDecision (pred : PredParams) (inventory : ℚ) (ba : BaselineAction)
    (dir : Direction) : Decision :=
  if ba.triggered then
    if dir = .STRONG_UPWARD ∨ dir = .MODERATE_UPWARD then
      executeTrade inventory (ba.batch_size * (1/2)) "BLEND_reduce_sell_pred_upward"
    else
      executeTrade inventory ba.batch_size "BLEND_follow_baseline"
  else
    if dir = .STRONG_DOWNWARD ∨ dir = .MODERATE_DOWNWARD then
      executeTrade inventory pred.batch_pred_cautious "BLEND_cautious_sell_pred_downward"
    else ⟨.HOLD, 0, "BLEND_hold_pred_agrees"⟩

/-- Modelled from the spec: `_get_baseline_action` of the matched-pair price
threshold strategy is not listed in the documentation; per its call site
(`strategies.md:1180,1186`) it reports whether the baseline threshold signal
triggered and the batch the baseline analysis would use. -/
def getBaselineActionPT (p : PTParams) (currentPrice : ℚ) (priceHistory : List ℚ) : BaselineAction :=
  if ptThreshold p currentPrice priceHistory < currentPrice then
    let br := ptAnalyzeHistorical p priceHistory
    ⟨true, br.1, br.2⟩
  else ⟨false, 0, "below_threshold"⟩

/-- `PriceThresholdPredictive._execute_baseline_logic`
(`prediction.py:285-310`, listing in `strategies.md:1212-1238`): identical
logic to `PriceThresholdStrategy` after its prologue, for fair comparison. -/
def executeBaselineLogicPT (p : PTParams) (day lastSaleDay : Nat)
    (inventory currentPrice : ℚ) (priceHistory : List ℚ) : Decision :=
  let daysSinceSale := day - lastSaleDay
  if ¬ ptThreshold p currentPrice priceHistory < currentPrice then
    if p.max_days_without_sale ≤ daysSinceSale then
      executeTrade inventory p.batch_baseline "BASELINE_fallback"
    else ⟨.HOLD, 0, "BASELINE_below_threshold"⟩
  else
    let br := ptAnalyzeHistorical p priceHistory
    executeTrade inventory br.1 br.2

/-- Parameters of `PriceThresholdPredictive` (`prediction.py:46-380`):
all the baseline parameters plus the prediction parameters. -/
structure PTPParams extends PTParams, PredParams

/-- `PriceThresholdPredictive.decide` (`prediction.py:124-166`, listing in
`strategies.md:1007-1049`): forced liquidation, cooldown, then the 3-tier
confidence hierarchy (HIGH override / MEDIUM blend / LOW baseline). -/
def ptpDecide (p : PTPParams) (day lastSaleDay : Nat) (inventory currentPrice : ℚ)
    (priceHistory : List ℚ) (preds : Option (List (List ℚ))) (cv : ℚ) : Decision :=
  if inventory ≤ 0 then ⟨.HOLD, 0, "no_inventory"⟩
  else match forceLiquidationCheck p.max_holding_days day inventory with
  | some d => d
  | none =>
    if day - lastSaleDay < p.cooldown_days then ⟨.HOLD, 0, "cooldown"⟩
    else
      match preds with
      | some m =>
        if 0 < matSize m then
          let nb := calcNetBenefitPct p.storage_cost_pct_per_day p.transaction_cost_pct
            currentPrice m
          match signalConfidence p.toPredParams cv with
          | .HIGH => executePredictionOverride p.toPredParams p.batch_baseline inventory
              (signalDirection p.toPredParams nb)
          | .MEDIUM => executeBlendedDecision p.toPredParams inventory
              (getBaselineActionPT p.toPTParams currentPrice priceHistory)
              (signalDirection p.toPredParams nb)
          | .LOW => executeBaselineLogicPT p.toPTParams day lastSaleDay inventory
              currentPrice priceHistory
        else executeBaselineLogicPT p.toPTParams day lastSaleDay inventory currentPrice
          priceHistory
      | none => executeBaselineLogicPT p.toPTParams day lastSaleDay inventory currentPrice
          priceHistory

/-- Modelled from the spec: `_get_baseline_action` of the matched-pair moving
average strategy; per the documentation of `MovingAveragePredictive`
(`introduction.md:423-441`) the baseline signal is the downward MA crossover. -/
def getBaselineActionMA (p : MAParams) (currentPrice : ℚ) (priceHistory : List ℚ) : BaselineAction :=
  if priceHistory.length < p.ma_period + 1 then ⟨false, 0, "insufficient_history"⟩
  else
    let recentPrices := lastN (p.ma_period + 1) priceHistory
    let maCurrent := listMean (lastN p.ma_period recentPrices)
    let maPrev := listMean (recentPrices.take p.ma_period)
    let prevPrice := recentPrices.getD (recentPrices.length - 2) 0
    if maPrev ≤ prevPrice ∧ currentPrice < maCurrent then
      let br := maAnalyzeHistorical p priceHistory
      ⟨true, br.1, br.2⟩
    else ⟨false, 0, "no_sell_signal"⟩

/-- `MovingAveragePredictive._execute_baseline_logic`
(`prediction.py:635-658`; `strategies.md:1297`: identical structure to the
price-threshold pair with MA-crossover baseline logic): the body of
`MovingAverageStrategy.decide` after its prologue. -/
def executeBaselineLogicMA (p : MAParams) (day lastSaleDay : Nat)
    (inventory currentPrice : ℚ) (priceHistory : List ℚ) : Decision :=
  let daysSinceSale := day - lastSaleDay
  if p.max_days_without_sale ≤ daysSinceSale then
    executeTrade inventory p.batch_baseline "BASELINE_fallback"
  else if priceHistory.length < p.ma_period + 1 then ⟨.HOLD, 0, "BASELINE_insufficient_history"⟩
  else
    let recentPrices := lastN (p.ma_period + 1) priceHistory
    let maCurrent := listMean (lastN p.ma_period recentPrices)
    let maPrev := listMean (recentPrices.take p.ma_period)
    let prevPrice := recentPrices.getD (recentPrices.length - 2) 0
    if prevPrice ≤ maPrev ∧ maCurrent < currentPrice then
      ⟨.HOLD, 0, "BASELINE_upward_crossover"⟩
    else if maPrev ≤ prevPrice ∧ currentPrice < maCurrent then
      if daysSinceSale < p.cooldown_days then ⟨.HOLD, 0, "BASELINE_cooldown"⟩
      else
        let br := maAnalyzeHistorical p priceHistory
        executeTrade inventory br.1 br.2
    else ⟨.HOLD, 0, "BASELINE_no_crossover"⟩

/-- Parameters of `MovingAveragePredictive` (`prediction.py:387-729`). -/
structure MAPParams extends MAParams, PredParams

/-- `MovingAveragePredictive.decide` (`prediction.py:467-516`, documented in
`introduction.md:431-433` as the identical 3-tier structure with the MA
baseline). -/
def mapDecide (p : MAPParams) (day lastSaleDay : Nat) (inventory currentPrice : ℚ)
    (priceHistory : List ℚ) (preds : Option (List (List ℚ))) (cv : ℚ) : Decision :=
  if inventory ≤ 0 then ⟨.HOLD, 0, "no_inventory"⟩
  else match forceLiquidationCheck p.max_holding_days day inventory with
  | some d => d
  | none =>
    if day - lastSaleDay < p.cooldown_days then ⟨.HOLD, 0, "cooldown"⟩
    else
      match preds with
      | some m =>
        if 0 < matSize m then
          let nb := calcNetBenefitPct p.storage_cost_pct_per_day p.transaction_cost_pct
            currentPrice m
          match signalConfidence p.toPredParams cv with
          | .HIGH => executePredictionOverride p.toPredParams p.batch_baseline inventory
              (signalDirection p.toPredParams nb)
          | .MEDIUM => executeBlendedDecision p.toPredParams inventory
              (getBaselineActionMA p.toMAParams currentPrice priceHistory)
              (signalDirection p.toPredParams nb)
          | .LOW => executeBaselineLogicMA p.toMAParams day lastSaleDay inventory
              currentPrice priceHistory
        else executeBaselineLogicMA p.toMAParams day lastSaleDay inventory currentPrice
          priceHistory
      | none => executeBaselineLogicMA p.toMAParams day lastSaleDay inventory currentPrice
          priceHistory

/-- Parameters of `ExpectedValueStrategy` (`prediction.py:736-866`,
defaults from `strategies.md:1454-1469`). -/
structure EVParams where
  storage_cost_pct_per_day : ℚ := 5/1000
  transaction_cost_pct : ℚ := 1/100
  min_net_benefit_pct : ℚ := 1/2
  negative_threshold_pct : ℚ := -3/10
  high_confidence_cv : ℚ := 5/100
  medium_confidence_cv : ℚ := 10/100
  strong_trend_adx : ℚ := 25
  batch_positive_confident : ℚ := 0
  batch_positive_uncertain : ℚ := 10/100
  batch_marginal : ℚ := 15/100
  batch_negative_mild : ℚ := 25/100
  batch_negative_strong : ℚ := 35/100
  cooldown_days : Nat := 7
  baseline_batch : ℚ := 15/100
  baseline_frequency : Nat := 30
  max_holding_days : Nat := 365

/-- `_find_optimal_sale_day_pct` (`prediction.py:841-857`, listing in
`strategies.md:1323-1348`): best horizon day by expected value and the net
benefit over selling today. -/
def findOptimalSaleDayPct (storageRate transRate currentPrice : ℚ)
    (m : List (List ℚ)) : Nat × ℚ :=
  let evByDay := (List.range (matShape1 m)).map (fun h =>
    let futurePrice := npMedian (matCol m h)
    let storageCost := currentPrice * (storageRate / 100) * ((h : ℚ) + 1)
    let transactionCost := futurePrice * (transRate / 100)
    futurePrice - storageCost - transactionCost)
  let evToday := currentPrice - currentPrice * (transRate / 100)
  let optimalDay := argmaxIdx evByDay
  (optimalDay, 100 * (evByDay.getD optimalDay 0 - evToday) / currentPrice)

/-- `_analyze_expected_value_pct` (`prediction.py:805-839`, listing in
`strategies.md:1353-1393`). -/
def evAnalyze (p : EVParams) (currentPrice : ℚ) (priceHistory : List ℚ)
    (m : List (List ℚ)) (cv : ℚ) : ℚ × String :=
  let netBenefitPct := (findOptimalSaleDayPct p.storage_cost_pct_per_day
    p.transaction_cost_pct currentPrice m).2
  let adx := (calculateADX priceHistory (min 14 (priceHistory.length - 1))).1
  if p.min_net_benefit_pct < netBenefitPct then
    if cv < p.high_confidence_cv ∧ p.strong_trend_adx < adx then
      (p.batch_positive_confident, "net_benefit_high_conf_hold")
    else if cv < p.medium_confidence_cv then
      (p.batch_positive_uncertain, "net_benefit_med_conf_small_hedge")
    else (p.batch_marginal, "net_benefit_low_conf_hedge")
  else if 0 < netBenefitPct then (p.batch_marginal, "marginal_benefit_gradual_liquidation")
  else if p.negative_threshold_pct < netBenefitPct then
    (p.batch_negative_mild, "mild_negative_avoid_storage")
  else (p.batch_negative_strong, "strong_negative_sell_to_cut_losses")

/-- `ExpectedValueStrategy.decide` (`prediction.py:779-803`, listing in
`introduction.md:461-476`). -/
def evDecide (p : EVParams) (day lastSaleDay : Nat) (inventory currentPrice : ℚ)
    (priceHistory : List ℚ) (preds : Option (List (List ℚ))) (cv : ℚ) : Decision :=
  if inventory ≤ 0 then ⟨.HOLD, 0, "no_inventory"⟩
  else match forceLiquidationCheck p.max_holding_days day inventory with
  | some d => d
  | none =>
    if day - lastSaleDay < p.cooldown_days then ⟨.HOLD, 0, "cooldown"⟩
    else match preds with
    | none =>
      if p.baseline_frequency ≤ day - lastSaleDay then
        executeTrade inventory p.baseline_batch "periodic_default_sale"
      else ⟨.HOLD, 0, "no_predictions"⟩
    | some m =>
      let br := evAnalyze p currentPrice priceHistory m cv
      executeTrade inventory br.1 br.2

/-- Parameters of `ConsensusStrategy` (`prediction.py:873-1028`,
defaults from `strategies.md:1597-1611`). -/
structure ConsensusParams where
  storage_cost_pct_per_day : ℚ := 5/1000
  transaction_cost_pct : ℚ := 1/100
  consensus_threshold : ℚ := 70/100
  very_strong_consensus : ℚ := 85/100
  moderate_consensus : ℚ := 60/100
  min_return : ℚ := 3/100
  min_net_benefit_pct : ℚ := 1/2
  high_confidence_cv : ℚ := 5/100
  evaluation_day : Nat := 14
  batch_strong_consensus : ℚ := 0
  batch_moderate : ℚ := 15/100
  batch_weak : ℚ := 25/100
  batch_bearish : ℚ := 35/100
  cooldown_days : Nat := 7
  max_holding_days : Nat := 365

/-- The bullish fraction of `_analyze_consensus_pct` (`strategies.md:1504-1508`):
fraction of ensemble paths at the evaluation day whose return over the current
price exceeds `min_return`. -/
def consensusBullishPct (minReturn currentPrice : ℚ) (dayPredictions : List ℚ) : ℚ :=
  ((dayPredictions.countP (fun x => decide (minReturn < (x - currentPrice) / currentPrice))) : ℚ)
    / (dayPredictions.length : ℚ)

/-- `_analyze_consensus_pct` (`prediction.py:963-1019`, listing in
`strategies.md:1495-1549`): five consensus tiers on the bullish fraction, net
benefit and confidence. -/
def analyzeConsensusPct (p : ConsensusParams) (currentPrice : ℚ) (m : List (List ℚ))
    (cv : ℚ) : ℚ × String :=
  let evalDay := min p.evaluation_day (matShape1 m - 1)
  let dayPredictions := matCol m evalDay
  let medianFuture := npMedian dayPredictions
  let expectedReturnPct := (medianFuture - currentPrice) / currentPrice
  let bullishPct := consensusBullishPct p.min_return currentPrice dayPredictions
  let storageCostPct := p.storage_cost_pct_per_day / 100 * ((evalDay : ℚ) + 1)
  let transCostPct := p.transaction_cost_pct / 100
  let netBenefitPct := 100 * (expectedReturnPct - storageCostPct - transCostPct)
  if p.very_strong_consensus ≤ bullishPct ∧ p.min_net_benefit_pct < netBenefitPct then
    (p.batch_strong_consensus, "very_strong_consensus_hold")
  else if p.consensus_threshold ≤ bullishPct ∧ p.min_net_benefit_pct < netBenefitPct then
    if cv < p.high_confidence_cv then (p.batch_strong_consensus, "strong_consensus_high_conf_hold")
    else (p.batch_moderate, "strong_consensus_med_conf_gradual")
  else if p.moderate_consensus ≤ bullishPct then (p.batch_moderate, "moderate_consensus_gradual")
  else if bullishPct < 1 - p.consensus_threshold then (p.batch_bearish, "bearish_consensus_sell")
  else (p.batch_weak, "weak_consensus_sell")

/-- `ConsensusStrategy.decide` (`prediction.py:938-961`, listing in
`introduction.md:573-587`). -/
def consensusDecide (p : ConsensusParams) (day lastSaleDay : Nat)
    (inventory currentPrice : ℚ) (_priceHistory : List ℚ)
    (preds : Option (List (List ℚ))) (cv : ℚ) : Decision :=
  if inventory ≤ 0 then ⟨.HOLD, 0, "no_inventory"⟩
  else match forceLiquidationCheck p.max_holding_days day inventory with
  | some d => d
  | none =>
    if day - lastSaleDay < p.cooldown_days then ⟨.HOLD, 0, "cooldown"⟩
    else match preds with
    | none =>
      if 30 ≤ day - lastSaleDay then executeTrade inventory (20/100) "periodic_default_sale"
      else ⟨.HOLD, 0, "no_predictions"⟩
    | some m =>
      let br := analyzeConsensusPct p currentPrice m cv
      executeTrade inventory br.1 br.2

/-- Parameters of `RiskAdjustedStrategy` (`prediction.py:1035-1190`,
defaults from `strategies.md:1788-1802`). -/
structure RAParams where
  storage_cost_pct_per_day : ℚ := 5/1000
  transaction_cost_pct : ℚ := 1/100
  min_return : ℚ := 3/100
  min_net_benefit_pct : ℚ := 1/2
  max_uncertainty_low : ℚ := 5/100
  max_uncertainty_medium : ℚ := 10/100
  max_uncertainty_high : ℚ := 20/100
  strong_trend_adx : ℚ := 25
  evaluation_day : Nat := 14
  batch_low_risk : ℚ := 0
  batch_medium_risk : ℚ := 10/100
  batch_high_risk : ℚ := 25/100
  batch_very_high_risk : ℚ := 35/100
  cooldown_days : Nat := 7
  max_holding_days : Nat := 365

/-- `_analyze_risk_adjusted_pct` (`prediction.py:1125-1181`, listing in
`strategies.md:1641-1700`). -/
def raAnalyze (p : RAParams) (currentPrice : ℚ) (priceHistory : List ℚ)
    (m : List (List ℚ)) (cv : ℚ) : ℚ × String :=
  let evalDay := min p.evaluation_day (matShape1 m - 1)
  let dayPredictions := matCol m evalDay
  let medianFuture := npMedian dayPredictions
  let expectedReturnPct := (medianFuture - currentPrice) / currentPrice
  let storageCostPct := p.storage_cost_pct_per_day / 100 * ((evalDay : ℚ) + 1)
  let transCostPct := p.transaction_cost_pct / 100
  let netBenefitPct := 100 * (expectedReturnPct - storageCostPct - transCostPct)
  let adx := (calculateADX priceHistory (min 14 (priceHistory.length - 1))).1
  if p.min_return ≤ expectedReturnPct ∧ p.min_net_benefit_pct < netBenefitPct then
    if cv < p.max_uncertainty_low ∧ p.strong_trend_adx < adx then
      (p.batch_low_risk, "low_risk_hold")
    else if cv < p.max_uncertainty_medium then (p.batch_medium_risk, "medium_risk_small_hedge")
    else if cv < p.max_uncertainty_high then (p.batch_high_risk, "high_risk_hedge")
    else (p.batch_very_high_risk, "very_high_risk_sell")
  else if netBenefitPct < 0 then (p.batch_very_high_risk, "negative_net_benefit_sell")
  else (p.batch_high_risk, "insufficient_return_sell")

/-- `RiskAdjustedStrategy.decide` (`prediction.py:1100-1123`, listing in
`introduction.md:680-694`). -/
def raDecide (p : RAParams) (day lastSaleDay : Nat) (inventory currentPrice : ℚ)
    (priceHistory : List ℚ) (preds : Option (List (List ℚ))) (cv : ℚ) : Decision :=
  if inventory ≤ 0 then ⟨.HOLD, 0, "no_inventory"⟩
  else match forceLiquidationCheck p.max_holding_days day inventory with
  | some d => d
  | none =>
    if day - lastSaleDay < p.cooldown_days then ⟨.HOLD, 0, "cooldown"⟩
    else match preds with
    | none =>
      if 30 ≤ day - lastSaleDay then executeTrade inventory (20/100) "periodic_default_sale"
      else ⟨.HOLD, 0, "no_predictions"⟩
    | some m =>
      let br := raAnalyze p currentPrice priceHistory m cv
      executeTrade inventory br.1 br.2

/-- Parameters of `RollingHorizonMPC` (`rolling_horizon_mpc.py:39-290`,
defaults from `strategies.md:2145-2150`). -/
structure MPCParams where
  storage_cost_pct_per_day : ℚ := 3/10
  transaction_cost_pct : ℚ := 2
  horizon_days : Nat := 14
  terminal_value_decay : ℚ := 95/100
  max_holding_days : Nat := 365

/-- Result dictionary of `_solve_window_lp` (`strategies.md:2049-2054`). -/
structure LPResult where
  sellSolution : List ℚ
  inventorySolution : List ℚ
  objectiveValue : ℚ
  shadowPrice : ℚ

/-- Forecast window length of `RollingHorizonMPC.decide`
(`strategies.md:1862`): `min(horizon_days, available_horizon)`. -/
def mpcWindowLen (p : MPCParams) (m : List (List ℚ)) : Nat :=
  min p.horizon_days (matShape1 m)

/-- Predicted prices handed to the LP by `RollingHorizonMPC.decide`
(`strategies.md:1867-1874`): per-day ensemble mean over the window, converted
from cents/lb to dollars/ton by the factor 20. -/
def mpcFuturePrices (p : MPCParams) (m : List (List ℚ)) : List ℚ :=
  ((List.range (mpcWindowLen p m)).map (fun h => listMean (matCol m h))).map (fun c => c * 20)

/-- The post-solve part of `RollingHorizonMPC.decide`
(`strategies.md:1889-1915`): read `sell_solution[0]`, suppress sales below
0.1 tons, otherwise sell `min(sell_today, inventory)`.  Receding-horizon
control: only the first day of the solved schedule is consulted. -/
def mpcExecute (inventory : ℚ) (sellSolution : List ℚ) : Decision :=
  let sellToday := sellSolution.headI
  if sellToday < 1/10 then ⟨.HOLD, 0, "mpc_hold"⟩
  else ⟨.SELL, min sellToday inventory, "mpc_optimize"⟩

/-- `RollingHorizonMPC.decide` (`rolling_horizon_mpc.py:77-179`, listing in
`strategies.md:1844-1915`), for the 2-D ensemble input.  The `linprog` call of
`_solve_window_lp` is abstracted as the `Option`-valued `solve` argument
(`none` = infeasibility or solver exception, both of which
`_solve_window_lp` converts to `None`, `strategies.md:2039-2058`).  The
exponential shadow-price smoothing update (`strategies.md:1893-1900`) mutates
only state consumed by later solves' objectives and does not affect the
returned decision, so it is not modelled.  Note: the listing contains no
`_force_liquidation_check` call. -/
def mpcDecide (p : MPCParams) (_day : Nat) (inventory _currentPrice : ℚ)
    (_priceHistory : List ℚ) (preds : Option (List (List ℚ)))
    (solve : ℚ → List ℚ → Option LPResult) : Decision :=
  if inventory ≤ 0 then ⟨.HOLD, 0, "no_inventory"⟩
  else match preds with
  | none => ⟨.HOLD, 0, "no_predictions"⟩
  | some m =>
    if m.length = 0 then ⟨.HOLD, 0, "no_predictions"⟩
    else if mpcWindowLen p m = 0 then ⟨.SELL, inventory, "no_forecast_horizon"⟩
    else match solve inventory (mpcFuturePrices p m) with
    | none => ⟨.HOLD, 0, "lp_failed"⟩
    | some r => mpcExecute inventory r.sellSolution

/-- Row `t` of the equality-constraint matrix `A_eq` built by
`_solve_window_lp` (`strategies.md:1995-2009`): coefficient `1` on `sell[t]`
(variable `t`) and on `inv[t]` (variable `n + t`), and `-1` on `inv[t-1]`
(variable `n + t - 1`) for `t > 0`. -/
def lpRow (n t j : Nat) : ℚ :=
  if j = t then 1
  else if j = n + t then 1
  else if 0 < t ∧ j = n + t - 1 then -1
  else 0

/-- Right-hand side `b_eq` built by `_solve_window_lp`
(`strategies.md:2002-2007`): `harvest[t]` for `t > 0` and
`current_inventory + harvest[0]` for day 0. -/
def lpBeq (currentInventory : ℚ) (harvest : Nat → ℚ) (t : Nat) : ℚ :=
  if t = 0 then currentInventory + harvest 0 else harvest t

/-- Constraint row `t` applied to a variable vector `x` of length `2n`
(`A_eq @ x` componentwise). -/
def lpDot (n t : Nat) (x : Nat → ℚ) : ℚ :=
  ∑ j ∈ Finset.range (2 * n), lpRow n t j * x j

/-- Variable bounds built by `_solve_window_lp` (`strategies.md:2026`):
`(0, None)` for every variable. -/
def lpBounds : Nat → ℚ × Option ℚ := fun _ => (0, none)

/-- Modelled from the spec: the Backtest Engine state for one run
(spec section 3, `SimulationState`); the engine daily loop itself
(`backtest_engine.py`, described in `src/unnamed/part_000:190-246` and spec
section 2) is not listed in the documentation, so it is modelled from the
spec: each day the engine applies the harvest inflow, queries the policy with
the post-inflow inventory, and executes the returned SELL amount. -/
structure EngineState where
  day : Nat
  inventory : ℚ
  lastSaleDay : Nat
  cumHarvest : ℚ
  cumSales : ℚ

/-- Modelled from the spec: one day of the Backtest Engine loop (spec
section 2: "applies harvest inflow, queries the active policy, ...,
accumulates trade and performance logs").  A policy is abstracted as a
function of (day, post-inflow inventory, last sale day). -/
def engineStep (P : Nat → ℚ → Nat → Decision) (harvest : Nat → ℚ)
    (s : EngineState) : EngineState :=
  let inv1 := s.inventory + harvest s.day
  let d := P s.day inv1 s.lastSaleDay
  match d.action with
  | .SELL => ⟨s.day + 1, inv1 - d.amount, s.day, s.cumHarvest + harvest s.day,
      s.cumSales + d.amount⟩
  | .HOLD => ⟨s.day + 1, inv1, s.lastSaleDay, s.cumHarvest + harvest s.day, s.cumSales⟩

/-- Modelled from the spec: `n` days of the Backtest Engine loop starting from
zero inventory (`strategies.md:53`: "Inventory starts at ZERO and accumulates
during harvest"). -/
def engineRun (P : Nat → ℚ → Nat → Decision) (harvest : Nat → ℚ) : Nat → EngineState
  | 0 => ⟨0, 0, 0, 0, 0⟩
  | n + 1 => engineStep P harvest (engineRun P harvest n)

/-- Default parameter records (the documented configuration of each policy). -/
def defaultIS : ISParams := {}

def defaultEB : EBParams := {}

def defaultPT : PTParams := {}

def defaultMA : MAParams := {}

def defaultPTP : PTPParams := {}

def defaultMAP : MAPParams := {}

def defaultEV : EVParams := {}

def defaultConsensus : ConsensusParams := {}

def defaultRA : RAParams := {}

def defaultMPC : MPCParams := {}

/-- A trivial always-hold policy, used to instantiate engine-level theorems on
a concrete input. -/
def holdPolicy : Nat → ℚ → Nat → Decision := fun _ _ _ => ⟨.HOLD, 0, "hold"⟩

/-- A guarded sell-half policy, used to instantiate engine-level theorems on a
concrete input. -/
def sellHalfPolicy : Nat → ℚ → Nat → Decision := fun _ inv _ =>
  if 0 < inv then ⟨.SELL, inv / 2, "sell_half"⟩ else ⟨.HOLD, 0, "hold"⟩

/-- A concrete two-path ensemble with a 14-day horizon, used to instantiate
ensemble-level theorems on a concrete input. -/
def sampleEnsemble : List (List ℚ) := [List.replicate 14 110, List.replicate 14 90]

/-- In a list sorted in nondecreasing order, any position at or past the
number of elements `≤ x` holds an element `> x`. -/
lemma sorted_gt_at_of_countP_le (x : ℚ) :
    ∀ (l : List ℚ), l.Sorted (· ≤ ·) → ∀ i, i < l.length →
      l.countP (fun a => decide (a ≤ x)) ≤ i → x < l.getD i 0 := by
  intro l
  induction l with
  | nil => intro _ i hi _; simp at hi
  | cons a t ih =>
    intro hs i hi hc
    rw [List.sorted_cons] at hs
    obtain ⟨ha, hts⟩ := hs
    by_cases hax : a ≤ x
    · rw [List.countP_cons_of_pos _ _ (by simpa using hax)] at hc
      cases i with
      | zero => omega
      | succ j =>
        simp only [List.getD_cons_succ]
        exact ih hts j (by simpa using hi) (by omega)
    · push_neg at hax
      cases i with
      | zero => simpa using hax
      | succ j =>
        simp only [List.getD_cons_succ]
        have hj : j < t.length := by simpa using hi
        have hmem : t.getD j 0 ∈ t := by
          rw [List.getD_eq_getElem t 0 hj]
          exact List.getElem_mem hj
        exact lt_of_lt_of_le hax (ha _ hmem)

/-- If strictly fewer than half of the elements are `≤ x`, then the numpy
median exceeds `x`. -/
lemma npMedian_gt_of_majority {x : ℚ} {l : List ℚ} (hne : l ≠ [])
    (hc : 2 * l.countP (fun a => decide (a ≤ x)) < l.length) : x < npMedian l := by
  have hlen : 0 < l.length := List.length_pos.mpr hne
  have hperm : List.Perm (l.insertionSort (· ≤ ·)) l := List.perm_insertionSort _ l
  have hslen : (l.insertionSort (· ≤ ·)).length = l.length := hperm.length_eq
  have hscount : (l.insertionSort (· ≤ ·)).countP (fun a => decide (a ≤ x))
      = l.countP (fun a => decide (a ≤ x)) := hperm.countP_eq _
  have hsorted : List.Sorted (· ≤ ·) (l.insertionSort (· ≤ ·)) := List.sorted_insertionSort _ l
  have h1 : x < (l.insertionSort (· ≤ ·)).getD ((l.length - 1) / 2) 0 :=
    sorted_gt_at_of_countP_le x _ hsorted _ (by omega) (by omega)
  have h2 : x < (l.insertionSort (· ≤ ·)).getD (l.length / 2) 0 :=
    sorted_gt_at_of_countP_le x _ hsorted _ (by omega) (by omega)
  unfold npMedian
  linarith

/-- The engine day counter advances by one each step. -/
lemma engineStep_day (P : Nat → ℚ → Nat → Decision) (harvest : Nat → ℚ) (s : EngineState) :
    (engineStep P harvest s).day = s.day + 1 := by
  unfold engineStep
  cases h : (P s.day (s.inventory + harvest s.day) s.lastSaleDay).action <;> simp [h]

/-- After `n` engine steps the day counter is `n`. -/
lemma engineRun_day (P : Nat → ℚ → Nat → Decision) (harvest : Nat → ℚ) :
    ∀ n, (engineRun P harvest n).day = n := by
  intro n
  induction n with
  | zero => rfl
  | succ k ih => rw [engineRun, engineStep_day, ih]

/-- Pointwise decomposition of a constraint-row entry times a variable. -/
lemma lpRow_mul (n t : Nat) (ht : t < n) (x : Nat → ℚ) (j : Nat) :
    lpRow n t j * x j =
      (if j = t then x j else 0) + (if j = n + t then x j else 0)
        + (if 0 < t ∧ j = n + t - 1 then -(x j) else 0) := by
  unfold lpRow
  by_cases h1 : j = t
  · rw [if_pos h1, if_pos h1, if_neg (show ¬ j = n + t by omega),
      if_neg (show ¬ (0 < t ∧ j = n + t - 1) by omega)]
    ring
  · rw [if_neg h1, if_neg h1]
    by_cases h2 : j = n + t
    · rw [if_pos h2, if_pos h2, if_neg (show ¬ (0 < t ∧ j = n + t - 1) by omega)]
      ring
    · rw [if_neg h2, if_neg h2]
      by_cases h3 : 0 < t ∧ j = n + t - 1
      · rw [if_pos h3, if_pos h3]
        ring
      · rw [if_neg h3, if_neg h3]
        ring

/-- Closed form of constraint row `t` applied to the variable vector:
`sell[t] + inv[t] - inv[t-1]` (no `inv[t-1]` term on day 0). -/
lemma lpDot_eq (n t : Nat) (ht : t < n) (x : Nat → ℚ) :
    lpDot n t x = x t + x (n + t) - (if 0 < t then x (n + t - 1) else 0) := by
  unfold lpDot
  rw [Finset.sum_congr rfl (fun j _ => lpRow_mul n t ht x j)]
  rw [Finset.sum_add_distrib, Finset.sum_add_distrib]
  rw [Finset.sum_ite_eq' (Finset.range (2 * n)) t x,
    Finset.sum_ite_eq' (Finset.range (2 * n)) (n + t) x]
  rw [if_pos (Finset.mem_range.mpr (by omega)), if_pos (Finset.mem_range.mpr (by omega))]
  by_cases h0 : 0 < t
  · have : ∀ j, (if 0 < t ∧ j = n + t - 1 then -(x j) else 0)
        = (if j = n + t - 1 then -(x j) else 0) := by
      intro j; by_cases hj : j = n + t - 1 <;> simp [hj, h0]
    rw [Finset.sum_congr rfl (fun j _ => this j)]
    rw [Finset.sum_ite_eq' (Finset.range (2 * n)) (n + t - 1) (fun j => -(x j))]
    rw [if_pos (Finset.mem_range.mpr (by omega)), if_pos h0]
    ring
  · have : ∀ j, (if 0 < t ∧ j = n + t - 1 then -(x j) else 0) = 0 := by
      intro j; simp [h0]
    rw [Finset.sum_congr rfl (fun j _ => this j)]
    simp [h0]

/-- Each engine step adds exactly the day's harvest inflow to the cumulative
harvest. -/
lemma engineStep_cumHarvest (P : Nat → ℚ → Nat → Decision) (harvest : Nat → ℚ)
    (s : EngineState) :
    (engineStep P harvest s).cumHarvest = s.cumHarvest + harvest s.day := by
  unfold engineStep
  cases h : (P s.day (s.inventory + harvest s.day) s.lastSaleDay).action <;> simp [h]

/-- Each engine step preserves `cumSales + inventory` up to the day's harvest
inflow: a SELL moves mass from inventory to cumulative sales. -/
lemma engineStep_wealth (P : Nat → ℚ → Nat → Decision) (harvest : Nat → ℚ)
    (s : EngineState) :
    (engineStep P harvest s).cumSales + (engineStep P harvest s).inventory
      = s.cumSales + s.inventory + harvest s.day := by
  unfold engineStep
  cases h : (P s.day (s.inventory + harvest s.day) s.lastSaleDay).action <;> simp [h] <;> ring

/-- An engine step keeps inventory nonnegative when the policy respects the
decision bounds. -/
lemma engineStep_inventory_nonneg (P : Nat → ℚ → Nat → Decision) (harvest : Nat → ℚ)
    (s : EngineState) (hs : 0 ≤ s.inventory) (hh : 0 ≤ harvest s.day)
    (h2 : (P s.day (s.inventory + harvest s.day) s.lastSaleDay).action = .SELL →
        (P s.day (s.inventory + harvest s.day) s.lastSaleDay).amount
          ≤ s.inventory + harvest s.day) :
    0 ≤ (engineStep P harvest s).inventory := by
  unfold engineStep
  cases h : (P s.day (s.inventory + harvest s.day) s.lastSaleDay).action
  · have := h2 h
    simp [h]
    linarith
  · simp [h]
    linarith

/-- C1: Mass balance of the Backtest Engine: for every day count `n` of a run
with nonnegative harvest inflow and a policy whose decisions have nonnegative
amounts bounded by the available inventory (the `Decision` data-model
invariant), cumulative harvest equals cumulative sales plus held inventory,
and inventory is never negative.  In the modelled engine loop inventory
increases only by the harvest inflow and decreases only by the executed SELL
amount. -/
theorem backtest_mass_balance (P : Nat → ℚ → Nat → Decision) (harvest : Nat → ℚ)
    (hh : ∀ d, 0 ≤ harvest d)
    (hP : ∀ d inv last, 0 ≤ (P d inv last).amount
        ∧ ((P d inv last).action = .SELL → (P d inv last).amount ≤ inv)) :
    ∀ n, (engineRun P harvest n).cumHarvest
          = (engineRun P harvest n).cumSales + (engineRun P harvest n).inventory
      ∧ 0 ≤ (engineRun P harvest n).inventory := by
  intro n
  induction n with
  | zero => exact ⟨by norm_num [engineRun], by norm_num [engineRun]⟩
  | succ k ih =>
    obtain ⟨ibal, inn⟩ := ih
    constructor
    · rw [engineRun, engineStep_cumHarvest]
      have hw := engineStep_wealth P harvest (engineRun P harvest k)
      linarith
    · rw [engineRun]
      exact engineStep_inventory_nonneg P harvest _ inn (hh _)
        (hP _ _ _).2

/-- C1 witness: the mass-balance theorem applied to a concrete guarded
sell-half policy, constant harvest inflow 1, after 4 days. -/
theorem backtest_mass_balance_witness :
    (engineRun sellHalfPolicy (fun _ => 1) 4).cumHarvest
      = (engineRun sellHalfPolicy (fun _ => 1) 4).cumSales
        + (engineRun sellHalfPolicy (fun _ => 1) 4).inventory
    ∧ 0 ≤ (engineRun sellHalfPolicy (fun _ => 1) 4).inventory :=
  backtest_mass_balance sellHalfPolicy (fun _ => 1) (fun _ => by norm_num)
    (fun d inv last => by
      unfold sellHalfPolicy
      by_cases h : 0 < inv
      · rw [if_pos h]
        exact ⟨by positivity, fun _ => by linarith⟩
      · rw [if_neg h]
        exact ⟨le_refl 0, fun hc => by exact absurd hc (by simp)⟩) 4

/-- C9: every concrete strategy decide operation, on any day, price, history
and forecast input, returns a HOLD of amount 0 with reason `no_inventory`
whenever current inventory is nonpositive — no strategy sells from empty or
negative inventory. -/
theorem no_inventory_always_hold
    (pIS : ISParams) (pEB : EBParams) (pPT : PTParams) (pMA : MAParams)
    (pPTP : PTPParams) (pMAP : MAPParams) (pEV : EVParams) (pC : ConsensusParams)
    (pRA : RAParams) (pM : MPCParams) (day lastSaleDay : Nat)
    (inventory currentPrice : ℚ) (priceHistory : List ℚ)
    (preds : Option (List (List ℚ))) (cv : ℚ)
    (solve : ℚ → List ℚ → Option LPResult)
    (hinv : inventory ≤ 0) :
    immediateSaleDecide pIS day lastSaleDay inventory = ⟨.HOLD, 0, "no_inventory"⟩
  ∧ equalBatchDecide pEB day lastSaleDay inventory = ⟨.HOLD, 0, "no_inventory"⟩
  ∧ ptDecide pPT day lastSaleDay inventory currentPrice priceHistory
      = ⟨.HOLD, 0, "no_inventory"⟩
  ∧ maDecide pMA day lastSaleDay inventory currentPrice priceHistory
      = ⟨.HOLD, 0, "no_inventory"⟩
  ∧ ptpDecide pPTP day lastSaleDay inventory currentPrice priceHistory preds cv
      = ⟨.HOLD, 0, "no_inventory"⟩
  ∧ mapDecide pMAP day lastSaleDay inventory currentPrice priceHistory preds cv
      = ⟨.HOLD, 0, "no_inventory"⟩
  ∧ evDecide pEV day lastSaleDay inventory currentPrice priceHistory preds cv
      = ⟨.HOLD, 0, "no_inventory"⟩
  ∧ consensusDecide pC day lastSaleDay inventory currentPrice priceHistory preds cv
      = ⟨.HOLD, 0, "no_inventory"⟩
  ∧ raDecide pRA day lastSaleDay inventory currentPrice priceHistory preds cv
      = ⟨.HOLD, 0, "no_inventory"⟩
  ∧ mpcDecide pM day inventory currentPrice priceHistory preds solve
      = ⟨.HOLD, 0, "no_inventory"⟩ := by
  refine ⟨?_, ?_, ?_, ?_, ?_, ?_, ?_, ?_, ?_, ?_⟩ <;>
    simp [immediateSaleDecide, equalBatchDecide, ptDecide, maDecide, ptpDecide, mapDecide,
      evDecide, consensusDecide, raDecide, mpcDecide, hinv]

/-- C9 witness: the no-inventory theorem applied at inventory 0 with default
parameters for every strategy. -/
theorem no_inventory_always_hold_witness :
    immediateSaleDecide defaultIS 10 3 0 = ⟨.HOLD, 0, "no_inventory"⟩
  ∧ equalBatchDecide defaultEB 10 3 0 = ⟨.HOLD, 0, "no_inventory"⟩
  ∧ ptDecide defaultPT 10 3 0 50 [] = ⟨.HOLD, 0, "no_inventory"⟩
  ∧ maDecide defaultMA 10 3 0 50 [] = ⟨.HOLD, 0, "no_inventory"⟩
  ∧ ptpDecide defaultPTP 10 3 0 50 [] none 1 = ⟨.HOLD, 0, "no_inventory"⟩
  ∧ mapDecide defaultMAP 10 3 0 50 [] none 1 = ⟨.HOLD, 0, "no_inventory"⟩
  ∧ evDecide defaultEV 10 3 0 50 [] none 1 = ⟨.HOLD, 0, "no_inventory"⟩
  ∧ consensusDecide defaultConsensus 10 3 0 50 [] none 1 = ⟨.HOLD, 0, "no_inventory"⟩
  ∧ raDecide defaultRA 10 3 0 50 [] none 1 = ⟨.HOLD, 0, "no_inventory"⟩
  ∧ mpcDecide defaultMPC 10 0 50 [] none (fun _ _ => none) = ⟨.HOLD, 0, "no_inventory"⟩ :=
  no_inventory_always_hold defaultIS defaultEB defaultPT defaultMA defaultPTP defaultMAP
    defaultEV defaultConsensus defaultRA defaultMPC 10 3 0 50 [] none 1
    (fun _ _ => none) (le_refl 0)

/-- C7: when the LP solve of the MPC policy fails (infeasibility or solver
error, both converted to `None` inside `_solve_window_lp`), the policy returns
a HOLD decision with the diagnostic reason `lp_failed`; the failure is a plain
return value, never an exception reaching the Backtest Engine. -/
theorem lp_failure_yields_hold (p : MPCParams) (day : Nat)
    (inventory currentPrice : ℚ) (priceHistory : List ℚ) (m : List (List ℚ))
    (solve : ℚ → List ℚ → Option LPResult)
    (hinv : 0 < inventory) (hm : m ≠ []) (hwin : mpcWindowLen p m ≠ 0)
    (hfail : solve inventory (mpcFuturePrices p m) = none) :
    mpcDecide p day inventory currentPrice priceHistory (some m) solve
      = ⟨.HOLD, 0, "lp_failed"⟩ := by
  have hm0 : m.length ≠ 0 := fun h => hm (List.length_eq_zero.mp h)
  simp [mpcDecide, not_le.mpr hinv, hm0, hwin, hfail]

/-- C7 witness: a concrete always-failing solver with 10 tons on hand and the
sample ensemble yields the `lp_failed` HOLD. -/
theorem lp_failure_yields_hold_witness :
    mpcDecide defaultMPC 5 10 50 [] (some sampleEnsemble) (fun _ _ => none)
      = ⟨.HOLD, 0, "lp_failed"⟩ :=
  lp_failure_yields_hold defaultMPC 5 10 50 [] sampleEnsemble (fun _ _ => none)
    (by norm_num) (by simp [sampleEnsemble]) (by simp [mpcWindowLen, matShape1, sampleEnsemble,
      defaultMPC]) rfl

/-- C10: the MPC policy suppresses tiny trades and never over-sells: when the
solver succeeds, a first-day sell amount below 0.1 tons yields a HOLD, and
otherwise the sold amount is exactly `min(sell_solution[0], inventory)`,
hence never exceeds the inventory on hand. -/
theorem mpc_min_trade_and_inventory_cap (p : MPCParams) (day : Nat)
    (inventory currentPrice : ℚ) (priceHistory : List ℚ) (m : List (List ℚ))
    (solve : ℚ → List ℚ → Option LPResult) (r : LPResult)
    (hinv : 0 < inventory) (hm : m ≠ []) (hwin : mpcWindowLen p m ≠ 0)
    (hsol : solve inventory (mpcFuturePrices p m) = some r) :
    (r.sellSolution.headI < 1/10 →
      mpcDecide p day inventory currentPrice priceHistory (some m) solve
        = ⟨.HOLD, 0, "mpc_hold"⟩)
  ∧ (1/10 ≤ r.sellSolution.headI →
      mpcDecide p day inventory currentPrice priceHistory (some m) solve
        = ⟨.SELL, min r.sellSolution.headI inventory, "mpc_optimize"⟩
      ∧ min r.sellSolution.headI inventory ≤ inventory) := by
  have hm0 : m.length ≠ 0 := fun h => hm (List.length_eq_zero.mp h)
  constructor
  · intro hsmall
    simp [mpcDecide, mpcExecute, not_le.mpr hinv, hm0, hwin, hsol, hsmall]
    linarith
  · intro hbig
    refine ⟨?_, min_le_right _ _⟩
    simp [mpcDecide, mpcExecute, not_le.mpr hinv, hm0, hwin, hsol, not_lt.mpr hbig]
    linarith

/-- C10 witness: a solver returning first-day sell 3 with 10 tons on hand
sells `min 3 10 = 3`; the theorem applied at that concrete input. -/
theorem mpc_min_trade_and_inventory_cap_witness :
    mpcDecide defaultMPC 5 10 50 [] (some sampleEnsemble)
        (fun _ _ => some ⟨[3, 2], [7, 5], 0, 0⟩)
      = ⟨.SELL, min (3 : ℚ) 10, "mpc_optimize"⟩
    ∧ min (3 : ℚ) 10 ≤ 10 :=
  (mpc_min_trade_and_inventory_cap defaultMPC 5 10 50 [] sampleEnsemble
    (fun _ _ => some ⟨[3, 2], [7, 5], 0, 0⟩) ⟨[3, 2], [7, 5], 0, 0⟩
    (by norm_num) (by simp [sampleEnsemble])
    (by simp [mpcWindowLen, matShape1, sampleEnsemble, defaultMPC]) rfl).2
    (by norm_num [List.headI])

/-- C2 (code-bug evidence): at day 400 (≥ max_holding_days = 365) with 10 tons
on hand and no forecast supplied, `RollingHorizonMPC.decide` returns a HOLD
with reason `no_predictions` instead of force-selling the inventory: its
listing (`strategies.md:1844-1915`) contains no `_force_liquidation_check`
call, although `introduction.md:952` states that all strategies have forced
liquidation and the spec (section 4.6) requires the check on every policy. -/
theorem mpc_missing_force_liquidation_eval :
    mpcDecide defaultMPC 400 10 50 [] none (fun _ _ => none)
      = ⟨.HOLD, 0, "no_predictions"⟩
  ∧ (0 : ℚ) < 10 ∧ 365 ≤ 400 := by
  refine ⟨?_, by norm_num, by norm_num⟩
  norm_num [mpcDecide]

/-- C4: the equality constraints built by `_solve_window_lp` hold of a
variable vector `x = (sell[0..n-1], inv[0..n-1])` exactly when
`sell[t] + inv[t] - inv[t-1] = harvest[t]` for every horizon day, with day 0
using the current on-hand inventory in place of `inv[-1]`; every variable is
bounded below by 0 with no upper bound; and the post-solve execution step
depends only on the first day of the sell schedule (receding-horizon control:
later horizon days are discarded). -/
theorem mpc_lp_balance_receding_horizon (n : Nat) (hn : 0 < n) (inv0 : ℚ)
    (harvest x : Nat → ℚ) :
    ((∀ t, t < n → lpDot n t x = lpBeq inv0 harvest t) ↔
      (x 0 + x n = inv0 + harvest 0
        ∧ ∀ t, 0 < t → t < n → x t + x (n + t) - x (n + t - 1) = harvest t))
  ∧ (∀ j, lpBounds j = ((0 : ℚ), (none : Option ℚ)))
  ∧ (∀ (inventory : ℚ) (s s' : List ℚ), s.headI = s'.headI →
      mpcExecute inventory s = mpcExecute inventory s') := by
  refine ⟨⟨?_, ?_⟩, fun j => rfl, ?_⟩
  · intro h
    constructor
    · have h0 := h 0 hn
      rw [lpDot_eq n 0 hn x] at h0
      simpa [lpBeq] using h0
    · intro t ht0 htn
      have ht := h t htn
      rw [lpDot_eq n t htn x, if_pos ht0] at ht
      simpa [lpBeq, Nat.pos_iff_ne_zero.mp ht0] using ht
  · rintro ⟨h0, hrest⟩ t htn
    rw [lpDot_eq n t htn x]
    rcases Nat.eq_zero_or_pos t with rfl | ht0
    · simpa [lpBeq] using h0
    · rw [if_pos ht0]
      simp [lpBeq, Nat.pos_iff_ne_zero.mp ht0, hrest t ht0 htn]
  · intro inventory s s' hh
    unfold mpcExecute
    rw [hh]

/-- C4 witness: the receding-horizon component of the theorem applied at a
concrete input: two sell schedules sharing their first entry give the same
decision. -/
theorem mpc_lp_balance_receding_horizon_witness :
    (0 : Nat) < 2 ∧ mpcExecute 5 [3, 9] = mpcExecute 5 [3, 100] :=
  ⟨by norm_num,
    (mpc_lp_balance_receding_horizon 2 (by norm_num) 5 (fun _ => 1) (fun _ => 0)).2.2
      5 [3, 9] [3, 100] rfl⟩

/-- C6: the MEDIUM-confidence blend of a matched-pair forecast-aware policy:
if the baseline signal triggered (baseline would sell) and the forecast
direction is upward, the sell amount is exactly half the baseline sell
amount; if the baseline would hold and the forecast direction is downward,
the policy sells the cautious fraction 15 percent; otherwise it follows the
baseline exactly (same trade when triggered, HOLD when not).  The last
component shows `PriceThresholdPredictive.decide` routes every
MEDIUM-confidence non-forced, non-cooldown day through this blend. -/
theorem medium_confidence_blend (inventory : ℚ) (ba : BaselineAction) (dir : Direction) :
    ((ba.triggered = true) → (dir = .STRONG_UPWARD ∨ dir = .MODERATE_UPWARD) →
      (executeBlendedDecision defaultPTP.toPredParams inventory ba dir).action = .SELL
      ∧ (executeBlendedDecision defaultPTP.toPredParams inventory ba dir).amount
          = (inventory * ba.batch_size) / 2)
  ∧ ((ba.triggered = true) → ¬ (dir = .STRONG_UPWARD ∨ dir = .MODERATE_UPWARD) →
      executeBlendedDecision defaultPTP.toPredParams inventory ba dir
        = executeTrade inventory ba.batch_size "BLEND_follow_baseline")
  ∧ ((ba.triggered = false) → (dir = .STRONG_DOWNWARD ∨ dir = .MODERATE_DOWNWARD) →
      (executeBlendedDecision defaultPTP.toPredParams inventory ba dir).action = .SELL
      ∧ (executeBlendedDecision defaultPTP.toPredParams inventory ba dir).amount
          = inventory * (15/100))
  ∧ ((ba.triggered = false) → ¬ (dir = .STRONG_DOWNWARD ∨ dir = .MODERATE_DOWNWARD) →
      executeBlendedDecision defaultPTP.toPredParams inventory ba dir
        = ⟨.HOLD, 0, "BLEND_hold_pred_agrees"⟩)
  ∧ (∀ (p : PTPParams) (day lastSaleDay : Nat) (currentPrice : ℚ)
        (priceHistory : List ℚ) (m : List (List ℚ)) (cv : ℚ),
      ¬ inventory ≤ 0 → ¬ p.max_holding_days ≤ day →
      ¬ day - lastSaleDay < p.cooldown_days → 0 < matSize m →
      signalConfidence p.toPredParams cv = .MEDIUM →
      ptpDecide p day lastSaleDay inventory currentPrice priceHistory (some m) cv
        = executeBlendedDecision p.toPredParams inventory
            (getBaselineActionPT p.toPTParams currentPrice priceHistory)
            (signalDirection p.toPredParams
              (calcNetBenefitPct p.storage_cost_pct_per_day p.transaction_cost_pct
                currentPrice m))) := by
  refine ⟨?_, ?_, ?_, ?_, ?_⟩
  · intro htrig hup
    unfold executeBlendedDecision executeTrade
    rw [htrig, if_pos rfl, if_pos hup]
    exact ⟨rfl, by ring_nf⟩
  · intro htrig hup
    unfold executeBlendedDecision
    rw [htrig, if_pos rfl, if_neg hup]
  · intro htrig hdown
    simp [executeBlendedDecision, executeTrade, htrig, hdown, defaultPTP, defaultPT]
  · intro htrig hdown
    unfold executeBlendedDecision
    rw [htrig]
    simp only [Bool.false_eq_true, if_false, if_neg hdown]
  · intro p day lastSaleDay currentPrice priceHistory m cv hinv hday hcd hsz hconf
    simp [ptpDecide, forceLiquidationCheck, hinv, hday, hcd, hsz, hconf]

/-- C6 witness: the blend theorem applied at 40 tons, a triggered baseline
with batch 25 percent and a moderate-upward forecast: a SELL of exactly half
the baseline amount. -/
theorem medium_confidence_blend_witness :
    (executeBlendedDecision defaultPTP.toPredParams 40 ⟨true, 25/100, "baseline"⟩
        Direction.MODERATE_UPWARD).action = TAction.SELL
    ∧ (executeBlendedDecision defaultPTP.toPredParams 40 ⟨true, 25/100, "baseline"⟩
        Direction.MODERATE_UPWARD).amount = (40 * (25/100)) / 2 :=
  (medium_confidence_blend 40 ⟨true, 25/100, "baseline"⟩ Direction.MODERATE_UPWARD).1
    rfl (Or.inr rfl)

/-- C8: every policy configured with a 7-day cooldown (the two baseline
technical strategies and the five forecast-aware strategies, at their
documented defaults) HOLDs with amount 0 whenever fewer than 7 days have
passed since the last sale and forced liquidation has not been reached; and
consequently, in any engine run of a policy with that gate, a non-forced SELL
issued on day `n` is at least 7 days after the recorded last sale day — no
two consecutive non-forced sells are fewer than 7 days apart. -/
theorem cooldown_gate_respected :
    (∀ (day lastSaleDay : Nat) (inventory currentPrice : ℚ) (priceHistory : List ℚ),
      ¬ 365 ≤ day → day - lastSaleDay < 7 →
      (ptDecide defaultPT day lastSaleDay inventory currentPrice priceHistory).action = .HOLD
      ∧ (ptDecide defaultPT day lastSaleDay inventory currentPrice priceHistory).amount = 0)
  ∧ (∀ (day lastSaleDay : Nat) (inventory currentPrice : ℚ) (priceHistory : List ℚ),
      ¬ 365 ≤ day → day - lastSaleDay < 7 →
      (maDecide defaultMA day lastSaleDay inventory currentPrice priceHistory).action = .HOLD
      ∧ (maDecide defaultMA day lastSaleDay inventory currentPrice priceHistory).amount = 0)
  ∧ (∀ (day lastSaleDay : Nat) (inventory currentPrice : ℚ) (priceHistory : List ℚ)
        (preds : Option (List (List ℚ))) (cv : ℚ),
      ¬ 365 ≤ day → day - lastSaleDay < 7 →
      (ptpDecide defaultPTP day lastSaleDay inventory currentPrice priceHistory preds cv).action
          = .HOLD
      ∧ (ptpDecide defaultPTP day lastSaleDay inventory currentPrice priceHistory preds
          cv).amount = 0)
  ∧ (∀ (day lastSaleDay : Nat) (inventory currentPrice : ℚ) (priceHistory : List ℚ)
        (preds : Option (List (List ℚ))) (cv : ℚ),
      ¬ 365 ≤ day → day - lastSaleDay < 7 →
      (mapDecide defaultMAP day lastSaleDay inventory currentPrice priceHistory preds cv).action
          = .HOLD
      ∧ (mapDecide defaultMAP day lastSaleDay inventory currentPrice priceHistory preds
          cv).amount = 0)
  ∧ (∀ (day lastSaleDay : Nat) (inventory currentPrice : ℚ) (priceHistory : List ℚ)
        (preds : Option (List (List ℚ))) (cv : ℚ),
      ¬ 365 ≤ day → day - lastSaleDay < 7 →
      (evDecide defaultEV day lastSaleDay inventory currentPrice priceHistory preds cv).action
          = .HOLD
      ∧ (evDecide defaultEV day lastSaleDay inventory currentPrice priceHistory preds
          cv).amount = 0)
  ∧ (∀ (day lastSaleDay : Nat) (inventory currentPrice : ℚ) (priceHistory : List ℚ)
        (preds : Option (List (List ℚ))) (cv : ℚ),
      ¬ 365 ≤ day → day - lastSaleDay < 7 →
      (consensusDecide defaultConsensus day lastSaleDay inventory currentPrice priceHistory
          preds cv).action = .HOLD
      ∧ (consensusDecide defaultConsensus day lastSaleDay inventory currentPrice priceHistory
          preds cv).amount = 0)
  ∧ (∀ (day lastSaleDay : Nat) (inventory currentPrice : ℚ) (priceHistory : List ℚ)
        (preds : Option (List (List ℚ))) (cv : ℚ),
      ¬ 365 ≤ day → day - lastSaleDay < 7 →
      (raDecide defaultRA day lastSaleDay inventory currentPrice priceHistory preds cv).action
          = .HOLD
      ∧ (raDecide defaultRA day lastSaleDay inventory currentPrice priceHistory preds
          cv).amount = 0)
  ∧ (∀ (P : Nat → ℚ → Nat → Decision) (harvest : Nat → ℚ),
      (∀ d inv last, ¬ 365 ≤ d → d - last < 7 → (P d inv last).action = .HOLD) →
      ∀ n, ¬ 365 ≤ n →
        (P n ((engineRun P harvest n).inventory + harvest n)
            (engineRun P harvest n).lastSaleDay).action = .SELL →
        7 ≤ n - (engineRun P harvest n).lastSaleDay) := by
  refine ⟨?_, ?_, ?_, ?_, ?_, ?_, ?_, ?_⟩
  · intro day lastSaleDay inventory currentPrice priceHistory hday hcd
    by_cases hinv : inventory ≤ 0
    · simp [ptDecide, hinv]
    · simp only [ptDecide, forceLiquidationCheck, defaultPT]
      split_ifs <;> simp_all <;> omega
  · intro day lastSaleDay inventory currentPrice priceHistory hday hcd
    by_cases hinv : inventory ≤ 0
    · simp [maDecide, hinv]
    · simp only [maDecide, forceLiquidationCheck, defaultMA]
      split_ifs <;> simp_all <;> omega
  · intro day lastSaleDay inventory currentPrice priceHistory preds cv hday hcd
    by_cases hinv : inventory ≤ 0
    · simp [ptpDecide, hinv]
    · simp [ptpDecide, forceLiquidationCheck, defaultPTP, defaultPT, hinv, hday, hcd]
  · intro day lastSaleDay inventory currentPrice priceHistory preds cv hday hcd
    by_cases hinv : inventory ≤ 0
    · simp [mapDecide, hinv]
    · simp [mapDecide, forceLiquidationCheck, defaultMAP, defaultMA, hinv, hday, hcd]
  · intro day lastSaleDay inventory currentPrice priceHistory preds cv hday hcd
    by_cases hinv : inventory ≤ 0
    · simp [evDecide, hinv]
    · simp [evDecide, forceLiquidationCheck, defaultEV, hinv, hday, hcd]
  · intro day lastSaleDay inventory currentPrice priceHistory preds cv hday hcd
    by_cases hinv : inventory ≤ 0
    · simp [consensusDecide, hinv]
    · simp [consensusDecide, forceLiquidationCheck, defaultConsensus, hinv, hday, hcd]
  · intro day lastSaleDay inventory currentPrice priceHistory preds cv hday hcd
    by_cases hinv : inventory ≤ 0
    · simp [raDecide, hinv]
    · simp [raDecide, forceLiquidationCheck, defaultRA, hinv, hday, hcd]
  · intro P harvest hgate n hn hsell
    by_contra hlt
    push_neg at hlt
    have hh := hgate n ((engineRun P harvest n).inventory + harvest n)
      (engineRun P harvest n).lastSaleDay hn hlt
    rw [hh] at hsell
    exact TAction.noConfusion hsell

/-- C8 witness: the price-threshold gate applied at day 10 with last sale on
day 5 (5 days since the last sale, below the 7-day cooldown). -/
theorem cooldown_gate_respected_witness :
    (ptDecide defaultPT 10 5 20 50 []).action = TAction.HOLD
    ∧ (ptDecide defaultPT 10 5 20 50 []).amount = 0 :=
  cooldown_gate_respected.1 10 5 20 50 [] (by omega) (by omega)

/-- C3: fallback agreement of the matched pairs: when the ensemble yields
`cv = 1` (maximal uncertainty, as returned for an empty ensemble or a
non-positive median), `PriceThresholdPredictive.decide` and
`MovingAveragePredictive.decide` produce the same action and amount as their
rule-based baselines on the same (day, inventory, price, history), for any
parameterisation whose confidence cutoffs are below 1 and whose cooldown does
not exceed the fallback horizon (true of the documented defaults 5 / 15
percent and 7 / 60 days). -/
theorem predictive_fallback_agreement (p : PTPParams) (q : MAPParams)
    (day lastSaleDay : Nat) (inventory currentPrice : ℚ) (priceHistory : List ℚ)
    (preds : Option (List (List ℚ))) (cv : ℚ)
    (hcv : cv = 1)
    (hp1 : p.high_confidence_cv ≤ 1) (hp2 : p.medium_confidence_cv ≤ 1)
    (hp3 : p.cooldown_days ≤ p.max_days_without_sale)
    (hq1 : q.high_confidence_cv ≤ 1) (hq2 : q.medium_confidence_cv ≤ 1)
    (hq3 : q.cooldown_days ≤ q.max_days_without_sale) :
    ((ptpDecide p day lastSaleDay inventory currentPrice priceHistory preds cv).action
        = (ptDecide p.toPTParams day lastSaleDay inventory currentPrice priceHistory).action
      ∧ (ptpDecide p day lastSaleDay inventory currentPrice priceHistory preds cv).amount
        = (ptDecide p.toPTParams day lastSaleDay inventory currentPrice priceHistory).amount)
  ∧ ((mapDecide q day lastSaleDay inventory currentPrice priceHistory preds cv).action
        = (maDecide q.toMAParams day lastSaleDay inventory currentPrice priceHistory).action
      ∧ (mapDecide q day lastSaleDay inventory currentPrice priceHistory preds cv).amount
        = (maDecide q.toMAParams day lastSaleDay inventory currentPrice priceHistory).amount) := by
  subst hcv
  have hconfP : signalConfidence p.toPredParams 1 = Confidence.LOW := by
    unfold signalConfidence
    rw [if_neg (not_lt.mpr hp1), if_neg (not_lt.mpr hp2)]
  have hconfQ : signalConfidence q.toPredParams 1 = Confidence.LOW := by
    unfold signalConfidence
    rw [if_neg (not_lt.mpr hq1), if_neg (not_lt.mpr hq2)]
  constructor
  · by_cases hinv : inventory ≤ 0
    · simp [ptpDecide, ptDecide, hinv]
    · by_cases hday : p.max_holding_days ≤ day
      · simp [ptpDecide, ptDecide, forceLiquidationCheck, hinv, hday]
      · by_cases hcd : day - lastSaleDay < p.cooldown_days
        · have hptp : ptpDecide p day lastSaleDay inventory currentPrice priceHistory preds 1
              = ⟨.HOLD, 0, "cooldown"⟩ := by
            simp [ptpDecide, forceLiquidationCheck, hinv, hday, hcd]
          have hpt : (ptDecide p.toPTParams day lastSaleDay inventory currentPrice
                priceHistory).action = .HOLD
              ∧ (ptDecide p.toPTParams day lastSaleDay inventory currentPrice
                priceHistory).amount = 0 := by
            simp only [ptDecide, forceLiquidationCheck]
            split_ifs <;> simp_all <;> omega
          rw [hptp]
          exact ⟨hpt.1.symm, hpt.2.symm⟩
        · have hred : ptpDecide p day lastSaleDay inventory currentPrice priceHistory preds 1
              = executeBaselineLogicPT p.toPTParams day lastSaleDay inventory currentPrice
                  priceHistory := by
            cases preds with
            | none => simp [ptpDecide, forceLiquidationCheck, hinv, hday, hcd]
            | some m =>
              by_cases hsz : 0 < matSize m
              · simp [ptpDecide, forceLiquidationCheck, hinv, hday, hcd, hsz, hconfP]
              · simp [ptpDecide, forceLiquidationCheck, hinv, hday, hcd, hsz]
          rw [hred]
          have hct : p.toPTParams.cooldown_days ≤ day - lastSaleDay := not_lt.mp hcd
          simp only [executeBaselineLogicPT, ptDecide, forceLiquidationCheck, executeTrade]
          split_ifs <;> simp_all <;> omega
  · by_cases hinv : inventory ≤ 0
    · simp [mapDecide, maDecide, hinv]
    · by_cases hday : q.max_holding_days ≤ day
      · simp [mapDecide, maDecide, forceLiquidationCheck, hinv, hday]
      · by_cases hcd : day - lastSaleDay < q.cooldown_days
        · have hmap : mapDecide q day lastSaleDay inventory currentPrice priceHistory preds 1
              = ⟨.HOLD, 0, "cooldown"⟩ := by
            simp [mapDecide, forceLiquidationCheck, hinv, hday, hcd]
          have hma : (maDecide q.toMAParams day lastSaleDay inventory currentPrice
                priceHistory).action = .HOLD
              ∧ (maDecide q.toMAParams day lastSaleDay inventory currentPrice
                priceHistory).amount = 0 := by
            simp only [maDecide, forceLiquidationCheck]
            split_ifs <;> simp_all <;> omega
          rw [hmap]
          exact ⟨hma.1.symm, hma.2.symm⟩
        · have hred : mapDecide q day lastSaleDay inventory currentPrice priceHistory preds 1
              = executeBaselineLogicMA q.toMAParams day lastSaleDay inventory currentPrice
                  priceHistory := by
            cases preds with
            | none => simp [mapDecide, forceLiquidationCheck, hinv, hday, hcd]
            | some m =>
              by_cases hsz : 0 < matSize m
              · simp [mapDecide, forceLiquidationCheck, hinv, hday, hcd, hsz, hconfQ]
              · simp [mapDecide, forceLiquidationCheck, hinv, hday, hcd, hsz]
          rw [hred]
          simp only [executeBaselineLogicMA, maDecide, forceLiquidationCheck, executeTrade]
          split_ifs <;> simp_all <;> omega

/-- C3 witness: the fallback-agreement theorem applied at the default
parameterisations and a concrete mid-season state with an empty ensemble. -/
theorem predictive_fallback_agreement_witness :
    ((ptpDecide defaultPTP 100 80 30 55 [] (some []) 1).action
        = (ptDecide defaultPT 100 80 30 55 []).action
      ∧ (ptpDecide defaultPTP 100 80 30 55 [] (some []) 1).amount
        = (ptDecide defaultPT 100 80 30 55 []).amount)
  ∧ ((mapDecide defaultMAP 100 80 30 55 [] (some []) 1).action
        = (maDecide defaultMA 100 80 30 55 []).action
      ∧ (mapDecide defaultMAP 100 80 30 55 [] (some []) 1).amount
        = (maDecide defaultMA 100 80 30 55 []).amount) :=
  predictive_fallback_agreement defaultPTP defaultMAP 100 80 30 55 [] (some []) 1 rfl
    (by norm_num [defaultPTP, defaultPT]) (by norm_num [defaultPTP, defaultPT])
    (by norm_num [defaultPTP, defaultPT]) (by norm_num [defaultMAP, defaultMA])
    (by norm_num [defaultMAP, defaultMA]) (by norm_num [defaultMAP, defaultMA])

/-- Helper for the consensus tiers: when at least 70 percent of the paths at
the evaluation day have a return above the 3 percent threshold, the ensemble
median exceeds `current_price * 1.03` (the middle ranks of the sorted column
lie among the bullish paths). -/
lemma consensus_median_gt (c : ℚ) (col : List ℚ) (hc : 0 < c) (hne : col ≠ [])
    (hb : 70/100 ≤ consensusBullishPct (3/100) c col) :
    c * (103/100) < npMedian col := by
  have hn0 : 0 < col.length := List.length_pos.mpr hne
  have hq : (70:ℚ)/100 * (col.length : ℚ)
      ≤ (col.countP (fun x => decide ((3:ℚ)/100 < (x - c) / c)) : ℚ) := by
    rw [consensusBullishPct, le_div_iff (by exact_mod_cast hn0)] at hb
    exact hb
  have hnat : 70 * col.length
      ≤ 100 * col.countP (fun x => decide ((3:ℚ)/100 < (x - c) / c)) := by
    have h100 : (70:ℚ) * (col.length : ℚ)
        ≤ 100 * (col.countP (fun x => decide ((3:ℚ)/100 < (x - c) / c)) : ℚ) := by
      linarith
    exact_mod_cast h100
  have hsplit := List.length_eq_countP_add_countP
    (p := fun x => decide ((3:ℚ)/100 < (x - c) / c)) (l := col)
  have hconv : col.countP (fun a => decide (a ≤ c * (103/100)))
      = col.countP (fun a => decide (¬ decide ((3:ℚ)/100 < (a - c) / c) = true)) := by
    refine List.countP_congr ?_
    intro x _
    simp only [decide_eq_true_eq, Bool.not_eq_true]
    constructor
    · intro h
      intro hcon
      rw [lt_div_iff hc] at hcon
      linarith
    · intro h
      rw [not_lt, div_le_iff hc] at h
      linarith
  have hmaj : 2 * col.countP (fun a => decide (a ≤ c * (103/100))) < col.length := by
    omega
  exact npMedian_gt_of_majority hne hmaj

/-- C5: the Ensemble Consensus selection at the default configuration
(evaluation horizon day 14, minimum return 3 percent): writing `b` for the
bullish fraction of paths at the evaluation day, the analysis selects exactly
five tiers — `b ≥ 85%` holds (sell fraction 0); `b ∈ [70%, 85%)` holds when
confidence is high (`cv < 5%`) and otherwise sells 15 percent; `b ∈ [60%,
70%)` sells 15 percent; `b < 30%` sells 35 percent; and `b ∈ [30%, 60%)`
sells 25 percent.  The net-benefit guard of the two top tiers is implied: a
70-percent-plus bullish majority forces the ensemble median above the
3 percent return threshold, hence a net benefit above the 0.5 percent
cutoff. -/
theorem consensus_five_tier_selection (m : List (List ℚ)) (currentPrice cv b : ℚ)
    (hm : m ≠ []) (hcols : matShape1 m = 14) (hp : 0 < currentPrice)
    (hb : b = consensusBullishPct (3/100) currentPrice (matCol m 13)) :
    (85/100 ≤ b → (analyzeConsensusPct defaultConsensus currentPrice m cv).1 = 0)
  ∧ (70/100 ≤ b → b < 85/100 →
      (analyzeConsensusPct defaultConsensus currentPrice m cv).1
        = if cv < 5/100 then 0 else 15/100)
  ∧ (60/100 ≤ b → b < 70/100 →
      (analyzeConsensusPct defaultConsensus currentPrice m cv).1 = 15/100)
  ∧ (b < 30/100 → (analyzeConsensusPct defaultConsensus currentPrice m cv).1 = 35/100)
  ∧ (30/100 ≤ b → b < 60/100 →
      (analyzeConsensusPct defaultConsensus currentPrice m cv).1 = 25/100) := by
  subst hb
  have hlen : (matCol m 13).length = m.length := List.length_map _ _
  have hne : matCol m 13 ≠ [] := by
    have h0 : 0 < (matCol m 13).length := by
      rw [hlen]
      exact List.length_pos.mpr hm
    exact List.ne_nil_of_length_pos h0
  have hret : 70/100 ≤ consensusBullishPct (3/100) currentPrice (matCol m 13) →
      3/100 < (npMedian (matCol m 13) - currentPrice) / currentPrice := by
    intro h
    have hmed := consensus_median_gt currentPrice (matCol m 13) hp hne h
    rw [lt_div_iff hp]
    linarith
  refine ⟨?_, ?_, ?_, ?_, ?_⟩
  · intro h85
    have hr := hret (by linarith)
    unfold analyzeConsensusPct
    simp only [defaultConsensus, hcols]
    rw [show min (14:Nat) (14-1) = 13 from by omega]
    simp only [Nat.cast_ofNat]
    split_ifs with h1 h2 h3 h4 h5 h6 <;>
      first
        | rfl
        | exact absurd ⟨by linarith, by linarith [hr]⟩ h1
  · intro h70 hlt85
    have hr := hret h70
    unfold analyzeConsensusPct
    simp only [defaultConsensus, hcols]
    rw [show min (14:Nat) (14-1) = 13 from by omega]
    simp only [Nat.cast_ofNat]
    split_ifs with h1 h2 h3 h4 h5 h6 <;>
      first
        | rfl
        | exact absurd h1.1 (not_le.mpr hlt85)
        | exact absurd ⟨h70, by linarith [hr]⟩ h2
        | exact absurd ⟨h70, by linarith [hr]⟩ h3
        | exact absurd ⟨h70, by linarith [hr]⟩ h4
        | (exfalso; linarith)
  · intro h60 hlt70
    unfold analyzeConsensusPct
    simp only [defaultConsensus, hcols]
    rw [show min (14:Nat) (14-1) = 13 from by omega]
    simp only [Nat.cast_ofNat]
    split_ifs with h1 h2 h3 h4 h5 h6 <;>
      first
        | rfl
        | exact absurd h1.1 (not_le.mpr (by linarith))
        | exact absurd h2.1 (not_le.mpr hlt70)
        | exact absurd h3.1 (not_le.mpr hlt70)
        | (exfalso; linarith)
  · intro hlt30
    unfold analyzeConsensusPct
    simp only [defaultConsensus, hcols]
    rw [show min (14:Nat) (14-1) = 13 from by omega]
    simp only [Nat.cast_ofNat]
    split_ifs with h1 h2 h3 h4 h5 h6 <;>
      first
        | rfl
        | exact absurd h1.1 (not_le.mpr (by linarith))
        | exact absurd h2.1 (not_le.mpr (by linarith))
        | exact absurd h3.1 (not_le.mpr (by linarith))
        | (exfalso; linarith)
  · intro h30 hlt60
    unfold analyzeConsensusPct
    simp only [defaultConsensus, hcols]
    rw [show min (14:Nat) (14-1) = 13 from by omega]
    simp only [Nat.cast_ofNat]
    split_ifs with h1 h2 h3 h4 h5 h6 <;>
      first
        | rfl
        | exact absurd h1.1 (not_le.mpr (by linarith))
        | exact absurd h2.1 (not_le.mpr (by linarith))
        | exact absurd h3.1 (not_le.mpr (by linarith))
        | (exfalso; linarith)

/-- C5 witness: the sample ensemble (one path at 110, one at 90, price 100)
has bullish fraction one half, landing in the weak-consensus tier with a
25 percent sell. -/
theorem consensus_five_tier_selection_witness :
    (analyzeConsensusPct defaultConsensus 100 sampleEnsemble (1/2)).1 = 25/100 := by
  have hcol : matCol sampleEnsemble 13 = [110, 90] := by
    norm_num [matCol, sampleEnsemble, List.getD]
  have hbval : consensusBullishPct (3/100) 100 (matCol sampleEnsemble 13) = 1/2 := by
    rw [hcol]
    norm_num [consensusBullishPct, List.countP_cons, List.countP_nil]
  exact (consensus_five_tier_selection sampleEnsemble 100 (1/2)
      (consensusBullishPct (3/100) 100 (matCol sampleEnsemble 13))
      (by decide) (by decide) (by norm_num) rfl).2.2.2.2
      (by rw [hbval]; norm_num) (by rw [hbval]; norm_num)
